import Mathlib

/-!
Verification of the Velvet Metal registration wizard.

This file gives a shallow embedding of the registration wizard state
machine found in the repository (the `Register` page component and the
`ProfileCreation` form component) and proves properties of it.

Modelling conventions:
* A browser `File` is a record of name, size (bytes) and MIME type.
* Side effects (toasts, the identity-provider register call, storage
  uploads, object-URL creation and revocation, navigation, session-storage
  mutation) are recorded in an explicit effect trace returned alongside
  the new state.
* External collaborator outcomes (identity provider, object storage,
  profile-row update) are supplied as oracle values in a `Collaborators`
  record, matching the spec's treatment of them as external contracts.
* `URL.createObjectURL` is modelled as a deterministic handle derived from
  the file name; the properties proved depend only on which creation and
  revocation effects occur, never on the handle's text.
-/

/-- A browser file: the fields of the DOM `File` value the wizard reads. -/
structure File where
  name : String
  size : Nat
  type : String
deriving DecidableEq, Repr

/-- Observable side effects emitted by the wizard's handlers. -/
inductive Effect where
  | toastError (msg : String)
  | registerCall (email password displayName : String)
  | getUserCall
  | storageUpload (bucket path : String)
  | logError (msg : String)
  | profileUpdate (userId avatarUrl : String)
  | createObjectURL (fileName : String)
  | revokeObjectURL (url : String)
  | navigate (url : String)
  | removeSessionItem (key : String)
deriving DecidableEq, Repr

/-- Is an effect a storage upload? -/
def Effect.isUpload : Effect → Bool
  | .storageUpload _ _ => true
  | _ => false

/-- Is an effect an object-URL revocation? -/
def Effect.isRevoke : Effect → Bool
  | .revokeObjectURL _ => true
  | _ => false

/-- Is an effect the identity-provider register call? -/
def Effect.isRegisterCall : Effect → Bool
  | .registerCall _ _ _ => true
  | _ => false

/-- Is an effect a user-visible error toast? -/
def Effect.isToastError : Effect → Bool
  | .toastError _ => true
  | _ => false

/-- The avatar-related slice of the component state: `formData.avatar`
and the `previewUrl` state variable. -/
structure AvatarState where
  avatar : Option File
  previewUrl : Option String
deriving DecidableEq, Repr

/-- Model of `URL.createObjectURL`: a deterministic handle for the file. -/
def objectURL (file : File) : String :=
  "blob:" ++ file.name

/-- Embedding of `handleFileUpload` (Register lines 537-547, identical in
ProfileCreation lines 50-59): reject files over `2 * 1024 * 1024` bytes
with a toast and no state change; otherwise create a preview URL and set
`formData.avatar`. -/
def handleFileUpload (st : AvatarState) (file : File) : AvatarState × List Effect :=
  if file.size > 2 * 1024 * 1024 then
    (st, [.toastError "Avatar image must be less than 2MB"])
  else
    ({ avatar := some file, previewUrl := some (objectURL file) },
     [.createObjectURL file.name])

/-- Embedding of `handleFileChange` (the file-picker path): take the first
selected file, if any, and pass it to `handleFileUpload`. No type check
is performed in this handler. -/
def handleFileChange (st : AvatarState) (files : List File) : AvatarState × List Effect :=
  match files.head? with
  | some file => handleFileUpload st file
  | none => (st, [])

/-- Executable model of `String.startsWith`: prefix test on the character
sequence of the strings. -/
def strStartsWith (s p : String) : Bool :=
  p.data.isPrefixOf s.data

/-- Embedding of `handleDrop` (the drag-drop path): the first dropped file
is forwarded to `handleFileUpload` only when its MIME type starts with
`image/`; otherwise a toast error is shown and nothing changes. -/
def handleDrop (st : AvatarState) (files : List File) : AvatarState × List Effect :=
  match files.head? with
  | some file =>
    if strStartsWith file.type "image/" then
      handleFileUpload st file
    else
      (st, [.toastError "Please upload an image file"])
  | none => (st, [.toastError "Please upload an image file"])

/-- Embedding of `removeAvatar`: clear `formData.avatar`; when a preview
URL exists, revoke it and clear it. -/
def removeAvatar (st : AvatarState) : AvatarState × List Effect :=
  match st.previewUrl with
  | some url => ({ avatar := none, previewUrl := none }, [.revokeObjectURL url])
  | none => ({ st with avatar := none }, [])

/-- Claim C9: for every avatar file whose size exceeds 2 MiB the upload is
rejected with a user-visible error toast and the state — `formData.avatar`
and the preview — is unchanged. -/
theorem c9_oversized_avatar_rejected (st : AvatarState) (file : File)
    (h : file.size > 2 * 1024 * 1024) :
    handleFileUpload st file = (st, [.toastError "Avatar image must be less than 2MB"]) := by
  simp [handleFileUpload, h]

/-- Witness for C9 at a concrete 3,000,000-byte file. -/
theorem c9_oversized_avatar_rejected_witness :
    handleFileUpload { avatar := none, previewUrl := none } ⟨"big.png", 3000000, "image/png"⟩ =
      ({ avatar := none, previewUrl := none },
       [.toastError "Avatar image must be less than 2MB"]) :=
  c9_oversized_avatar_rejected _ _ (by decide)

/-- Claim C10: a file of size exactly `2 * 1024 * 1024` bytes passes the
strict greater-than size check: `formData.avatar` is set to it and a
preview URL is created. -/
theorem c10_boundary_avatar_accepted (st : AvatarState) (file : File)
    (h : file.size = 2 * 1024 * 1024) :
    handleFileUpload st file =
      ({ avatar := some file, previewUrl := some (objectURL file) },
       [.createObjectURL file.name]) := by
  simp [handleFileUpload, h]

/-- Witness for C10 at a concrete file of exactly 2 MiB. -/
theorem c10_boundary_avatar_accepted_witness :
    handleFileUpload { avatar := none, previewUrl := none } ⟨"pic.png", 2097152, "image/png"⟩ =
      ({ avatar := some ⟨"pic.png", 2097152, "image/png"⟩,
         previewUrl := some (objectURL ⟨"pic.png", 2097152, "image/png"⟩) },
       [.createObjectURL "pic.png"]) :=
  c10_boundary_avatar_accepted _ _ (by decide)

/-- Counterexample to claim C5: a non-image file selected through the
file picker is accepted, not rejected — `handleFileChange` performs no
type check, so a 100-byte `text/plain` file is stored in
`formData.avatar` and no error toast is emitted. -/
theorem c5_picker_accepts_non_image :
    (handleFileChange { avatar := none, previewUrl := none }
        [⟨"notes.txt", 100, "text/plain"⟩]).1.avatar =
      some ⟨"notes.txt", 100, "text/plain"⟩ ∧
    (handleFileChange { avatar := none, previewUrl := none }
        [⟨"notes.txt", 100, "text/plain"⟩]).2.all (fun e => !e.isToastError) = true := by
  constructor
  · rfl
  · rfl

/-- Claim C5 (amended): only the drag-drop path rejects a non-image file
with a user-visible error and no state change; the file-picker path
applies no type check in the handler and accepts any file within the
size limit. -/
theorem c5_amended_type_check_only_on_drop :
    (∀ (st : AvatarState) (file : File), strStartsWith file.type "image/" = false →
      handleDrop st [file] = (st, [.toastError "Please upload an image file"])) ∧
    (∀ (st : AvatarState) (file : File), file.size ≤ 2 * 1024 * 1024 →
      (handleFileChange st [file]).1.avatar = some file) := by
  constructor
  · intro st file h
    simp [handleDrop, h]
  · intro st file h
    simp [handleFileChange, handleFileUpload, Nat.not_lt.mpr h]

/-- Witness for the amended C5 at concrete files. -/
theorem c5_amended_type_check_only_on_drop_witness :
    handleDrop { avatar := none, previewUrl := none } [⟨"doc.pdf", 10, "application/pdf"⟩] =
      ({ avatar := none, previewUrl := none }, [.toastError "Please upload an image file"]) ∧
    (handleFileChange { avatar := none, previewUrl := none }
        [⟨"a.gif", 7, "image/gif"⟩]).1.avatar = some ⟨"a.gif", 7, "image/gif"⟩ :=
  ⟨c5_amended_type_check_only_on_drop.1 _ _ (by decide),
   c5_amended_type_check_only_on_drop.2 _ _ (by decide)⟩

/-- Counterexample to claim C6: replacing a pending avatar through
`handleFileUpload` (reached from both the picker and the drop path) never
revokes the previous preview URL — with an existing preview handle, the
replacement trace contains no revocation and the old handle is dropped. -/
theorem c6_replacement_leaks_preview :
    (handleFileUpload { avatar := some ⟨"old.png", 100, "image/png"⟩,
                        previewUrl := some "blob:old.png" }
        ⟨"new.png", 200, "image/png"⟩).1.previewUrl = some "blob:new.png" ∧
    (handleFileUpload { avatar := some ⟨"old.png", 100, "image/png"⟩,
                        previewUrl := some "blob:old.png" }
        ⟨"new.png", 200, "image/png"⟩).2.all (fun e => !e.isRevoke) = true := by
  constructor
  · rfl
  · rfl

/-- Claim C6 (amended): the preview object URL is released only on
explicit removal (`removeAvatar` revokes and clears it); replacement via
selection or drag-drop goes through `handleFileUpload`, which never emits
a revocation, and the component installs no teardown cleanup. -/
theorem c6_amended_revoke_only_on_removal :
    (∀ (st : AvatarState) (url : String), st.previewUrl = some url →
      removeAvatar st = ({ avatar := none, previewUrl := none }, [.revokeObjectURL url])) ∧
    (∀ (st : AvatarState) (file : File),
      (handleFileUpload st file).2.all (fun e => !e.isRevoke) = true) := by
  constructor
  · intro st url h
    simp [removeAvatar, h]
  · intro st file
    by_cases h : file.size > 2 * 1024 * 1024
    · simp [handleFileUpload, h, Effect.isRevoke]
    · simp [handleFileUpload, h, Effect.isRevoke]

/-- Witness for the amended C6 at a concrete state and file. -/
theorem c6_amended_revoke_only_on_removal_witness :
    removeAvatar { avatar := some ⟨"p.png", 5, "image/png"⟩, previewUrl := some "blob:p.png" } =
      ({ avatar := none, previewUrl := none }, [.revokeObjectURL "blob:p.png"]) ∧
    (handleFileUpload { avatar := none, previewUrl := none }
        ⟨"q.png", 6, "image/png"⟩).2.all (fun e => !e.isRevoke) = true :=
  ⟨c6_amended_revoke_only_on_removal.1 _ _ rfl,
   c6_amended_revoke_only_on_removal.2 _ _⟩

/-- A row of the `user_services` table as selected by the sync-status
query: the service name and the nullable `last_library_sync` column
(`none` models SQL NULL, meaning a library sync is in progress). -/
structure SyncStatus where
  service : String
  last_library_sync : Option Nat
deriving DecidableEq, Repr

/-- Modelled from the spec: the `useConnectedServices` hook is not under
`src/`; per the spec's data model, the connected services are exactly the
user's per-service connection rows, so the hook is modelled as the
services of the user's `user_services` rows. -/
def connectedServices (rows : List SyncStatus) : List String :=
  rows.map (·.service)

/-- Embedding of `isAnySyncing` (Register lines 493-505):
`syncStatuses?.some((status) => status.last_library_sync === null)`.
An unresolved query (`none`) is falsy. -/
def isAnySyncing (syncStatuses : Option (List SyncStatus)) : Bool :=
  match syncStatuses with
  | none => false
  | some l => l.any fun status => status.last_library_sync.isNone

/-- Embedding of the finish button's `disabled` expression (Register
lines 953-964): `!connectedServices?.length || isAnySyncing`, evaluated
in the state where both queries have resolved against the user's
`user_services` rows. -/
def finishDisabled (rows : List SyncStatus) : Bool :=
  (connectedServices rows).isEmpty || isAnySyncing (some rows)

/-- Embedding of the sync-status query's `refetchInterval` option
(Register line 490): `connectedServices?.length ? 2000 : false`; `none`
models `false` (polling off) and `some n` a fixed n-millisecond interval. -/
def refetchInterval (connected : Option (List String)) : Option Nat :=
  match connected with
  | none => none
  | some l => if l.length ≠ 0 then some 2000 else none

/-- Claim C1: the terminal action of the Services step is enabled exactly
when at least one service is connected and every connected service's
`last_library_sync` is non-null; it is disabled when the connected list
is empty or any row's timestamp is null (in-progress sync). -/
theorem c1_finish_gating (rows : List SyncStatus) :
    finishDisabled rows = false ↔
      rows ≠ [] ∧ ∀ r ∈ rows, r.last_library_sync.isSome = true := by
  simp [finishDisabled, connectedServices, isAnySyncing, List.isEmpty_iff,
    Option.isNone_iff_eq_none, Option.isSome_iff_ne_none]

/-- Counterexample to claim C2: with one connected service whose
`last_library_sync` is non-null (sync finished), the claim says the
polling interval is cleared, but `refetchInterval` is still 2000 ms —
the code keys polling on connectedness, not on sync timestamps. -/
theorem c2_polls_after_sync_done :
    ¬ (∀ rows : List SyncStatus,
        (∀ r ∈ rows, r.last_library_sync.isSome = true) →
        refetchInterval (some (connectedServices rows)) = none) := by
  intro h
  have hc := h [⟨"spotify", some 5⟩] (by decide)
  simp [refetchInterval, connectedServices] at hc

/-- Claim C2 (amended): the sync-status query polls at a fixed 2-second
interval exactly while at least one service is connected, regardless of
the connected services' sync timestamps; the interval is cleared only
when the connected-services list is empty or not yet loaded. -/
theorem c2_amended_polling_keyed_on_connectedness :
    refetchInterval none = none ∧
    (∀ connected : List String,
      (refetchInterval (some connected) = some 2000 ↔ connected ≠ []) ∧
      (refetchInterval (some connected) = none ↔ connected = [])) := by
  refine ⟨rfl, fun connected => ?_⟩
  cases connected with
  | nil => simp [refetchInterval]
  | cons a l => simp [refetchInterval]

/-- The wizard's step type: `type Step = "account" | "subscription" | "services"`. -/
inductive Step where
  | account
  | subscription
  | services
deriving DecidableEq, Repr

/-- The string stored in the `step` query parameter for each step. -/
def stepToString : Step → String
  | .account => "account"
  | .subscription => "subscription"
  | .services => "services"

/-- The valid step strings checked by the `useState` initializer. -/
def validSteps : List String := ["account", "subscription", "services"]

/-- Embedding of the `currentStep` initializer (Register lines 419-429):
use the URL `step` parameter when it is one of the valid step strings
(the `stepParam as Step` cast is modelled by matching on the string),
otherwise start at `account`. -/
def initialStep (stepParam : Option String) : Step :=
  match stepParam with
  | some s =>
    if validSteps.contains s then
      if s = "subscription" then .subscription
      else if s = "services" then .services
      else .account
    else .account
  | none => .account

/-- First-match lookup in an association list; models both
`URLSearchParams.get` and `sessionStorage.getItem`. -/
def getParam (params : List (String × String)) (key : String) : Option String :=
  (params.find? fun kv => kv.1 == key).map (·.2)

/-- Model of `URLSearchParams.set`: all entries for the key are replaced
by the single new binding. -/
def setParam (params : List (String × String)) (key value : String) :
    List (String × String) :=
  (params.filter fun kv => kv.1 != key) ++ [(key, value)]

/-- Model of `sessionStorage.removeItem`. -/
def removeItem (storage : List (String × String)) (key : String) :
    List (String × String) :=
  storage.filter fun kv => kv.1 != key

/-- Embedding of the step-sync effect (Register lines 442-447): on every
`currentStep` change, `newParams.set("step", currentStep)` followed by a
replace-navigation to the updated query string. -/
def stepSyncParams (currentStep : Step) (params : List (String × String)) :
    List (String × String) :=
  setParam params "step" (stepToString currentStep)

/-- The navigable location and wizard-scoped session storage. -/
structure BrowserState where
  urlParams : List (String × String)
  sessionStorage : List (String × String)
deriving DecidableEq, Repr

/-- Result of mounting the Register component. -/
structure MountResult where
  step : Step
  browser : BrowserState
  effects : List Effect
deriving DecidableEq, Repr

/-- Embedding of mounting the Register page: the initial step is parsed
from the URL `step` parameter (lines 419-429), the mount effects
(lines 442-452) write the step back to the URL and remove the
`register_step` session-storage marker; no registration or
tier-selection logic runs on this path. -/
def mountRegister (b : BrowserState) : MountResult :=
  let step := initialStep (getParam b.urlParams "step")
  { step := step
    browser :=
      { urlParams := stepSyncParams step b.urlParams
        sessionStorage := removeItem b.sessionStorage "register_step" }
    effects := [.navigate ("?step=" ++ stepToString step),
                .removeSessionItem "register_step"] }

theorem find_setParam (p : List (String × String)) (k v : String) :
    (setParam p k v).find? (fun kv => kv.1 == k) = some (k, v) := by
  have hnone : (p.filter fun kv => kv.1 != k).find? (fun kv => kv.1 == k) = none := by
    refine List.find?_eq_none.mpr fun x hx => ?_
    have hmem := List.of_mem_filter hx
    simpa [bne] using hmem
  simp [setParam, List.find?_append, hnone, List.find?]

theorem getParam_setParam (p : List (String × String)) (k v : String) :
    getParam (setParam p k v) k = some v := by
  simp [getParam, find_setParam]

theorem getParam_removeItem (s : List (String × String)) (k : String) :
    getParam (removeItem s k) k = none := by
  have hnone : (s.filter fun kv => kv.1 != k).find? (fun kv => kv.1 == k) = none := by
    refine List.find?_eq_none.mpr fun x hx => ?_
    have hmem := List.of_mem_filter hx
    simpa [bne] using hmem
  simp [getParam, removeItem, hnone]

/-- Claim C3: the URL `step` parameter is the source of truth for the
active step — mounting with `step=services` restores the Services step
while the mount path runs no registration logic, the mount clears the
wizard-scoped `register_step` session-storage marker, and every step
change writes the current step back into the `step` parameter. -/
theorem c3_step_url_single_source :
    (∀ b : BrowserState, getParam b.urlParams "step" = some "services" →
      (mountRegister b).step = .services ∧
      (mountRegister b).effects.all (fun e => !e.isRegisterCall) = true) ∧
    (∀ b : BrowserState,
      getParam (mountRegister b).browser.sessionStorage "register_step" = none) ∧
    (∀ (s : Step) (params : List (String × String)),
      getParam (stepSyncParams s params) "step" = some (stepToString s)) := by
  refine ⟨fun b h => ⟨?_, ?_⟩, fun b => ?_, fun s params => ?_⟩
  · simp [mountRegister, h, initialStep, validSteps]
  · simp [mountRegister, Effect.isRegisterCall]
  · simpa [mountRegister] using getParam_removeItem b.sessionStorage "register_step"
  · simpa [stepSyncParams] using getParam_setParam params "step" (stepToString s)

/-- Witness for C3 at a concrete browser state carrying `step=services`
and a stale `register_step` marker. -/
theorem c3_step_url_single_source_witness :
    (mountRegister ⟨[("step", "services")], [("register_step", "subscription")]⟩).step =
      .services ∧
    getParam (mountRegister
        ⟨[("step", "services")], [("register_step", "subscription")]⟩).browser.sessionStorage
      "register_step" = none :=
  ⟨(c3_step_url_single_source.1 _ (by decide)).1,
   c3_step_url_single_source.2.1 _⟩

/-- The Register page's `formData` state object. -/
structure FormData where
  email : String
  display_name : String
  password : String
  confirmPassword : String
  selectedTier : String
  avatar : Option File
deriving DecidableEq, Repr

/-- The `ProfileCreation` component's form data (no tier field). -/
structure ProfileFormData where
  email : String
  display_name : String
  password : String
  confirmPassword : String
  avatar : Option File
deriving DecidableEq, Repr

/-- Oracle outcomes of the external collaborators consumed by
`handleRegister`: the identity provider's register call, the
current-user lookup, the storage upload, the profile-row update error
channel, and the random path token used in the upload file name. -/
structure Collaborators where
  registerResult : Except String Unit
  currentUser : Option String
  uploadResult : Except String String
  updateError : Option String
  randomToken : String
deriving Repr

/-- The wizard state slice touched by `handleRegister`. -/
structure RegisterState where
  formData : FormData
  currentStep : Step
  loading : Bool
deriving DecidableEq, Repr

/-- Embedding of `uploadAvatar` (Register lines 579-596): nothing happens
without a pending avatar; otherwise upload to the `avatars` bucket under
`userId/randomToken.ext`; a storage failure is caught, logged and turned
into `null`. -/
def uploadAvatar (env : Collaborators) (avatar : Option File) (userId : String) :
    Option String × List Effect :=
  match avatar with
  | none => (none, [])
  | some file =>
    let fileExt := (file.name.splitOn ".").getLastD ""
    let fileName := userId ++ "/" ++ env.randomToken ++ "." ++ fileExt
    match env.uploadResult with
    | .ok url => (some url, [.storageUpload "avatars" fileName])
    | .error e => (none, [.storageUpload "avatars" fileName, .logError e])

/-- Embedding of `handleRegister` (Register lines 598-637): block on a
password mismatch with a toast; otherwise call the identity provider's
register operation; on failure toast the message and stay on the current
step; on success look up the new user, best-effort upload the avatar and
update the profile row (failures only logged), then move to the
Subscription step. -/
def handleRegister (env : Collaborators) (st : RegisterState) : RegisterState × List Effect :=
  if st.formData.password ≠ st.formData.confirmPassword then
    ({ st with loading := false }, [.toastError "Passwords do not match"])
  else
    let call := Effect.registerCall st.formData.email st.formData.password
      st.formData.display_name
    match env.registerResult with
    | .error msg =>
      ({ st with loading := false },
       [call, .toastError (if msg = "" then "An error occurred during registration" else msg)])
    | .ok _ =>
      match env.currentUser, st.formData.avatar with
      | some uid, some _ =>
        let upload := uploadAvatar env st.formData.avatar uid
        let updateTrace : List Effect :=
          match upload.1 with
          | some url =>
            match env.updateError with
            | some e => [.profileUpdate uid url, .logError e]
            | none => [.profileUpdate uid url]
          | none => []
        ({ st with currentStep := .subscription, loading := false },
         call :: .getUserCall :: (upload.2 ++ updateTrace))
      | _, _ =>
        ({ st with currentStep := .subscription, loading := false },
         [call, .getUserCall])

/-- Embedding of `ProfileCreation.handleSubmit` (lines 91-98): block
submission with a toast when passwords differ; otherwise the `onSubmit`
callback is invoked with the form data (modelled by returning it). -/
def handleSubmit (fd : ProfileFormData) : Option ProfileFormData × List Effect :=
  if fd.password ≠ fd.confirmPassword then
    (none, [.toastError "Passwords do not match"])
  else
    (some fd, [])

/-- Claim C4: when password and confirmPassword differ, submitting step 1
never invokes the identity provider's register operation, surfaces a
user-visible error toast, and leaves the wizard on the Account step with
the form fields unchanged; the `ProfileCreation` variant likewise never
invokes its submit callback. -/
theorem c4_password_mismatch_blocks :
    (∀ (env : Collaborators) (st : RegisterState),
      st.currentStep = .account →
      st.formData.password ≠ st.formData.confirmPassword →
      (handleRegister env st).1.currentStep = .account ∧
      (handleRegister env st).1.formData = st.formData ∧
      (handleRegister env st).2.all (fun e => !e.isRegisterCall) = true ∧
      Effect.toastError "Passwords do not match" ∈ (handleRegister env st).2) ∧
    (∀ fd : ProfileFormData, fd.password ≠ fd.confirmPassword →
      handleSubmit fd = (none, [.toastError "Passwords do not match"])) := by
  constructor
  · intro env st hstep h
    simp [handleRegister, h, hstep, Effect.isRegisterCall, Effect.isToastError]
  · intro fd h
    simp [handleSubmit, h]

/-- Witness for C4 at a concrete mismatching form state. -/
theorem c4_password_mismatch_blocks_witness :
    (handleRegister ⟨.ok (), some "u1", .ok "url", none, "tok"⟩
        ⟨⟨"e@x.com", "Nia", "pw1", "pw2", "", none⟩, .account, false⟩).1.currentStep =
      .account ∧
    handleSubmit ⟨"e@x.com", "Nia", "pw1", "pw2", none⟩ =
      (none, [.toastError "Passwords do not match"]) :=
  ⟨(c4_password_mismatch_blocks.1 _ _ rfl (by decide)).1,
   c4_password_mismatch_blocks.2 _ (by decide)⟩

/-- Claim C7: with matching passwords, the avatar-upload side effect is
sequenced strictly after the register call (any upload in the trace
implies the trace starts with the register call), is never attempted
when registration fails (and the step is then unchanged), and a failed
upload or profile update does not block the move to the Subscription
step. -/
theorem c7_upload_after_register (env : Collaborators) (st : RegisterState)
    (hpw : st.formData.password = st.formData.confirmPassword) :
    (∀ msg, env.registerResult = .error msg →
      (handleRegister env st).2.all (fun e => !e.isUpload) = true ∧
      (handleRegister env st).1.currentStep = st.currentStep) ∧
    (∀ e ∈ (handleRegister env st).2, e.isUpload = true →
      (handleRegister env st).2.head? =
        some (.registerCall st.formData.email st.formData.password
          st.formData.display_name)) ∧
    (∀ u, env.registerResult = .ok u →
      (handleRegister env st).1.currentStep = .subscription) := by
  cases hreg : env.registerResult with
  | error msg =>
    refine ⟨fun m hm => ?_, fun e he hu => ?_, fun u hu => ?_⟩
    · simp [handleRegister, hpw, hreg, Effect.isUpload]
    · simp [handleRegister, hpw, hreg, Effect.isUpload] at he
      rcases he with he | he <;> simp [he, Effect.isUpload] at hu
    · simp [hreg] at hu
  | ok u =>
    refine ⟨fun m hm => ?_, fun e he hu => ?_, fun v hv => ?_⟩
    · simp [hreg] at hm
    · cases hu : env.currentUser with
      | none =>
        cases ha : st.formData.avatar <;>
          simp [handleRegister, hpw, hreg, hu, ha]
      | some uid =>
        cases ha : st.formData.avatar <;>
          simp [handleRegister, hpw, hreg, hu, ha]
    · cases hu : env.currentUser with
      | none =>
        cases ha : st.formData.avatar <;>
          simp [handleRegister, hpw, hreg, hu, ha]
      | some uid =>
        cases ha : st.formData.avatar <;>
          simp [handleRegister, hpw, hreg, hu, ha]

/-- Witness for C7: a concrete run where registration succeeds and the
storage upload fails, and the wizard still advances to Subscription. -/
theorem c7_upload_after_register_witness :
    (handleRegister ⟨.ok (), some "u1", .error "storage down", none, "tok"⟩
        ⟨⟨"e@x.com", "Nia", "pw", "pw", "", some ⟨"a.png", 9, "image/png"⟩⟩,
         .account, false⟩).1.currentStep = .subscription :=
  (c7_upload_after_register ⟨.ok (), some "u1", .error "storage down", none, "tok"⟩
      ⟨⟨"e@x.com", "Nia", "pw", "pw", "", some ⟨"a.png", 9, "image/png"⟩⟩,
       .account, false⟩ rfl).2.2 () rfl

/-- A row of the `subscription_tiers` table. -/
structure SubscriptionTier where
  id : String
  name : String
  tier : String
  price : Rat
  features : List (String × String)
deriving DecidableEq, Repr

/-- Price order between tiers. -/
def tierLE (a b : SubscriptionTier) : Prop :=
  a.price ≤ b.price

/-- Insert a tier into a price-sorted list, keeping it sorted. -/
def insertByPrice (t : SubscriptionTier) : List SubscriptionTier → List SubscriptionTier
  | [] => [t]
  | u :: us =>
    if t.price ≤ u.price then t :: u :: us
    else u :: insertByPrice t us

/-- Sort a list of tiers by ascending price (insertion sort). -/
def orderByPrice : List SubscriptionTier → List SubscriptionTier
  | [] => []
  | t :: ts => insertByPrice t (orderByPrice ts)

/-- Embedding of the subscription-tiers query (Register lines 454-466):
select all rows of `subscription_tiers` with `.order("price")`; the
order clause requested by the code is modelled as a sort on price,
matching the collaborator contract that the store returns the rows in
ascending price order. -/
def fetchSubscriptionTiers (table : List SubscriptionTier) : List SubscriptionTier :=
  orderByPrice table

/-- Embedding of the Subscription step's render (Register lines 810-861):
`subscriptionTiers?.map` renders one card per tier in the order of the
fetched list. -/
def renderedTiers (table : List SubscriptionTier) : List SubscriptionTier :=
  fetchSubscriptionTiers table

theorem mem_insertByPrice {x t : SubscriptionTier} :
    ∀ {l : List SubscriptionTier}, x ∈ insertByPrice t l → x = t ∨ x ∈ l := by
  intro l
  induction l with
  | nil =>
    intro h
    simp [insertByPrice] at h
    exact Or.inl h
  | cons u us ih =>
    intro h
    simp only [insertByPrice] at h
    split at h
    · rcases List.mem_cons.mp h with h1 | h1
      · exact Or.inl h1
      · exact Or.inr h1
    · rcases List.mem_cons.mp h with h1 | h1
      · exact Or.inr (by simp [h1])
      · rcases ih h1 with h2 | h2
        · exact Or.inl h2
        · exact Or.inr (List.mem_cons_of_mem _ h2)

theorem pairwise_insertByPrice (t : SubscriptionTier) :
    ∀ {l : List SubscriptionTier}, l.Pairwise tierLE →
      (insertByPrice t l).Pairwise tierLE := by
  intro l
  induction l with
  | nil =>
    intro _
    simp [insertByPrice, tierLE]
  | cons u us ih =>
    intro h
    rcases List.pairwise_cons.mp h with ⟨hu, hus⟩
    simp only [insertByPrice]
    split
    case isTrue hle =>
      refine List.pairwise_cons.mpr ⟨?_, h⟩
      intro x hx
      rcases List.mem_cons.mp hx with h1 | h1
      · rw [h1]; exact hle
      · exact le_trans hle (hu x h1)
    case isFalse hle =>
      refine List.pairwise_cons.mpr ⟨?_, ih hus⟩
      intro x hx
      rcases mem_insertByPrice hx with h1 | h1
      · rw [h1]; exact le_of_not_le hle
      · exact hu x h1

theorem pairwise_orderByPrice :
    ∀ l : List SubscriptionTier, (orderByPrice l).Pairwise tierLE := by
  intro l
  induction l with
  | nil => simp [orderByPrice]
  | cons t ts ih =>
    simp only [orderByPrice]
    exact pairwise_insertByPrice t ih

/-- Claim C8: the rendered subscription-tier list is ordered by ascending
price for every table contents, and for the concrete unsorted pair with
prices 9.99 and 0 the tier with id `a` is rendered before `b`. -/
theorem c8_tiers_rendered_ascending :
    (∀ table : List SubscriptionTier, (renderedTiers table).Pairwise tierLE) ∧
    renderedTiers
        [⟨"b", "Pro", "pro", 999/100, []⟩, ⟨"a", "Free", "free", 0, []⟩] =
      [⟨"a", "Free", "free", 0, []⟩, ⟨"b", "Pro", "pro", 999/100, []⟩] := by
  refine ⟨fun table => pairwise_orderByPrice table, ?_⟩
  norm_num [renderedTiers, fetchSubscriptionTiers, orderByPrice, insertByPrice]
